import Mathlib

/-
  Verification development for the CodeActor 3D visualizer.

  Shallow embedding of the visualizer core (scene-manager, interaction
  manager, animation manager, character mesh generator) over exact
  rational arithmetic.  Transcendental primitives of the host runtime
  (sqrt, cos, sin, pi) are abstracted as an explicit parameter record
  MathPrims, so every statement quantifies over their possible values;
  randomness (Math.random) is modelled as an explicit stream of
  rationals indexed by draw order.
-/

namespace CodeActor

/-- A 3D vector with rational coordinates, mirroring THREE.Vector3. -/
structure Vec3 where
  x : ℚ
  y : ℚ
  z : ℚ
deriving DecidableEq

/-- Componentwise subtraction, mirroring Vector3.subVectors. -/
def vsub (a b : Vec3) : Vec3 := ⟨a.x - b.x, a.y - b.y, a.z - b.z⟩

/-- Squared Euclidean norm of a vector. -/
def normSq (v : Vec3) : ℚ := v.x * v.x + v.y * v.y + v.z * v.z

/-- Linear interpolation, mirroring Vector3.copy(a).lerp(b, t)
    whose per-component update is this.x += (v.x - this.x) * alpha. -/
def lerpV (a b : Vec3) (t : ℚ) : Vec3 :=
  ⟨a.x + (b.x - a.x) * t, a.y + (b.y - a.y) * t, a.z + (b.z - a.z) * t⟩

/-- Abstract stand-ins for the transcendental primitives used by the
    source (Math.sqrt, Math.cos, Math.sin, Math.PI).  Theorems quantify
    over this record, so they hold for every possible valuation. -/
structure MathPrims where
  sqrt : ℚ → ℚ
  cos : ℚ → ℚ
  sin : ℚ → ℚ
  pi : ℚ

/-- A dependency relation as in analyzer/types: from, to, relationType,
    strength, description.  The source field names from and to are Lean
    keywords, hence fromId and toId. -/
structure DependencyRelation where
  fromId : String
  toId : String
  relationType : String
  strength : ℚ
  description : String
deriving DecidableEq

/-- Model of the JavaScript expression (e || 1) applied to a
    non-negative numeric value: 0 is falsy and replaced by 1. -/
def jsOr1 (q : ℚ) : ℚ := if q = 0 then 1 else q

/-- Division that fails on a zero divisor: the checked counterpart of
    the division operator, used to show no division by zero occurs. -/
def divC (a b : ℚ) : Option ℚ := if b = 0 then none else some (a / b)

/-- Option-valued map over a list, failing if any element fails. -/
def optMap (f : α → Option β) : List α → Option (List β)
  | [] => some []
  | a :: l => (f a).bind fun b => (optMap f l).map (fun bs => b :: bs)

/-- Option-valued left fold over a list, failing if any step fails. -/
def optFoldl (f : β → α → Option β) : β → List α → Option β
  | b, [] => some b
  | b, a :: l => (f b a).bind fun b2 => optFoldl f b2 l

/-- Option-valued n-fold iteration, failing if any iteration fails. -/
def iterOptN : ℕ → (α → Option α) → α → Option α
  | 0, _, a => some a
  | n + 1, f, a => (f a).bind (iterOptN n f)

/-- SceneManager.isBidirectionalRelation: a relation is bidirectional
    iff some relation in the set has the swapped endpoints. -/
def isBidirectionalRelation (fromId toId : String)
    (relations : List DependencyRelation) : Bool :=
  relations.any fun r => r.fromId == toId && r.toId == fromId

/-- CharacterMeshGenerator.calculateScaleFromCodeSize:
    baseScale = 1 + min(linesOfCode / 500 * 0.1, 0.5),
    returned as Math.max(0.6, Math.min(1.5, baseScale)). -/
def calculateScaleFromCodeSize (linesOfCode : ℚ) : ℚ :=
  let baseScale := 1 + min (linesOfCode / 500 * (1/10)) (1/2)
  max (6/10) (min (15/10) baseScale)

/-- One node of the force-directed layout: id, planar position (x, z)
    and transient velocity (vx, vz), as in SceneManager.calculateLayout. -/
structure LayoutNode where
  id : String
  x : ℚ
  z : ℚ
  vx : ℚ
  vz : ℚ
deriving DecidableEq

/-- Insertion of a node into the node table with JavaScript Map.set
    semantics: an existing key keeps its position and gets the new
    value, a new key is appended. -/
def mapSet (l : List LayoutNode) (nd : LayoutNode) : List LayoutNode :=
  if l.any (fun n => n.id == nd.id) then
    l.map fun n => if n.id == nd.id then nd else n
  else
    l ++ [nd]

/-- Initial circular placement of SceneManager.calculateLayout:
    node i sits at angle (i / N) * pi * 2 on a circle of the given
    radius, with zero velocity. -/
def layoutInit (m : MathPrims) (chars : List String) (radius : ℚ) :
    List LayoutNode :=
  chars.enum.foldl
    (fun acc p =>
      let angle := ((p.1 : ℚ) / (chars.length : ℚ)) * m.pi * 2
      mapSet acc ⟨p.2, m.cos angle * radius, m.sin angle * radius, 0, 0⟩)
    []

/-- Checked variant of layoutInit with the division i / N guarded. -/
def layoutInitC (m : MathPrims) (chars : List String) (radius : ℚ) :
    Option (List LayoutNode) :=
  optFoldl
    (fun acc p => do
      let q ← divC (p.1 : ℚ) (chars.length : ℚ)
      let angle := q * m.pi * 2
      pure (mapSet acc ⟨p.2, m.cos angle * radius, m.sin angle * radius, 0, 0⟩))
    [] chars.enum

/-- Repulsion pass for a single node: every other node contributes a
    force of magnitude k * k / d (d the planar distance, with the
    source guard dist || 1), scaled by 0.1 and directed away from the
    other node.  Mirrors the inner loop of calculateLayout. -/
def repulseNode (m : MathPrims) (k : ℚ) (nodes : List LayoutNode)
    (n1 : LayoutNode) : LayoutNode :=
  nodes.foldl
    (fun acc n2 =>
      if acc.id = n2.id then acc
      else
        let dx := acc.x - n2.x
        let dz := acc.z - n2.z
        let dist := jsOr1 (m.sqrt (dx * dx + dz * dz))
        let force := k * k / dist
        { acc with
          vx := acc.vx + dx / dist * force * (1/10)
          vz := acc.vz + dz / dist * force * (1/10) })
    n1

/-- Checked variant of repulseNode with every division guarded. -/
def repulseNodeC (m : MathPrims) (k : ℚ) (nodes : List LayoutNode)
    (n1 : LayoutNode) : Option LayoutNode :=
  optFoldl
    (fun acc n2 =>
      if acc.id = n2.id then some acc
      else
        let dx := acc.x - n2.x
        let dz := acc.z - n2.z
        let dist := jsOr1 (m.sqrt (dx * dx + dz * dz))
        do
          let force ← divC (k * k) dist
          let ax ← divC dx dist
          let az ← divC dz dist
          pure { acc with
                 vx := acc.vx + ax * force * (1/10)
                 vz := acc.vz + az * force * (1/10) })
    n1 nodes

/-- Repulsion pass over all nodes.  Positions are not mutated by the
    pass, so the sequential in-place velocity updates of the source are
    equivalent to an independent update per node. -/
def repulsePhase (m : MathPrims) (k : ℚ) (nodes : List LayoutNode) :
    List LayoutNode :=
  nodes.map (repulseNode m k nodes)

/-- Checked variant of repulsePhase. -/
def repulsePhaseC (m : MathPrims) (k : ℚ) (nodes : List LayoutNode) :
    Option (List LayoutNode) :=
  optMap (repulseNodeC m k nodes) nodes

/-- Velocity increment for the node with the given id. -/
def updVel (l : List LayoutNode) (id : String) (dvx dvz : ℚ) :
    List LayoutNode :=
  l.map fun n =>
    if n.id = id then { n with vx := n.vx + dvx, vz := n.vz + dvz } else n

/-- Lookup of a node by id, mirroring nodes.get(id). -/
def findNode (l : List LayoutNode) (id : String) : Option LayoutNode :=
  l.find? fun n => n.id == id

/-- Attraction pass: each relation whose endpoints both exist pulls
    them together with magnitude d * d / k scaled by 0.01, applied
    equal and opposite.  Mirrors the relation loop of calculateLayout. -/
def attractPhase (m : MathPrims) (k : ℚ) (rels : List DependencyRelation)
    (nodes : List LayoutNode) : List LayoutNode :=
  rels.foldl
    (fun ns rel =>
      match findNode ns rel.fromId, findNode ns rel.toId with
      | some n1, some n2 =>
        let dx := n2.x - n1.x
        let dz := n2.z - n1.z
        let dist := jsOr1 (m.sqrt (dx * dx + dz * dz))
        let force := dist * dist / k
        let fx := dx / dist * force * (1/100)
        let fz := dz / dist * force * (1/100)
        updVel (updVel ns rel.fromId fx fz) rel.toId (-fx) (-fz)
      | _, _ => ns)
    nodes

/-- Checked variant of attractPhase with every division guarded. -/
def attractPhaseC (m : MathPrims) (k : ℚ) (rels : List DependencyRelation)
    (nodes : List LayoutNode) : Option (List LayoutNode) :=
  optFoldl
    (fun ns rel =>
      match findNode ns rel.fromId, findNode ns rel.toId with
      | some n1, some n2 =>
        let dx := n2.x - n1.x
        let dz := n2.z - n1.z
        let dist := jsOr1 (m.sqrt (dx * dx + dz * dz))
        do
          let force ← divC (dist * dist) k
          let ax ← divC dx dist
          let az ← divC dz dist
          pure (updVel (updVel ns rel.fromId (ax * force * (1/100))
                  (az * force * (1/100))) rel.toId
                  (-(ax * force * (1/100))) (-(az * force * (1/100))))
      | _, _ => some ns)
    nodes rels

/-- Centering pass: each node is pulled toward the origin with
    constant magnitude 0.5 (distance guarded by dist || 1). -/
def centerNode (m : MathPrims) (n : LayoutNode) : LayoutNode :=
  let dist := jsOr1 (m.sqrt (n.x * n.x + n.z * n.z))
  { n with
    vx := n.vx - n.x / dist * (1/2)
    vz := n.vz - n.z / dist * (1/2) }

/-- Checked variant of centerNode. -/
def centerNodeC (m : MathPrims) (n : LayoutNode) : Option LayoutNode :=
  let dist := jsOr1 (m.sqrt (n.x * n.x + n.z * n.z))
  do
    let ax ← divC n.x dist
    let az ← divC n.z dist
    pure { n with vx := n.vx - ax * (1/2), vz := n.vz - az * (1/2) }

/-- Centering pass over all nodes. -/
def centerPhase (m : MathPrims) (nodes : List LayoutNode) :
    List LayoutNode :=
  nodes.map (centerNode m)

/-- Checked variant of centerPhase. -/
def centerPhaseC (m : MathPrims) (nodes : List LayoutNode) :
    Option (List LayoutNode) :=
  optMap (centerNodeC m) nodes

/-- Integration pass: velocity damped by 0.7, then added to the
    position. -/
def integrateNode (n : LayoutNode) : LayoutNode :=
  let vx := n.vx * (7/10)
  let vz := n.vz * (7/10)
  { n with vx := vx, vz := vz, x := n.x + vx, z := n.z + vz }

/-- Integration pass over all nodes. -/
def integratePhase (nodes : List LayoutNode) : List LayoutNode :=
  nodes.map integrateNode

/-- One iteration of the force-directed loop, in source order:
    repulsion, attraction, centering, integration. -/
def layoutStep (m : MathPrims) (k : ℚ) (rels : List DependencyRelation)
    (nodes : List LayoutNode) : List LayoutNode :=
  integratePhase (centerPhase m (attractPhase m k rels (repulsePhase m k nodes)))

/-- Checked variant of layoutStep. -/
def layoutStepC (m : MathPrims) (k : ℚ) (rels : List DependencyRelation)
    (nodes : List LayoutNode) : Option (List LayoutNode) := do
  let a ← repulsePhaseC m k nodes
  let b ← attractPhaseC m k rels a
  let c ← centerPhaseC m b
  pure (integratePhase c)

/-- The number of layout iterations fixed by the source. -/
def layoutIterations : ℕ := 100

/-- SceneManager.calculateLayout: circular initialization of radius
    max(10, sqrt(N) * 3), then 100 iterations of the force loop with
    ideal spring length k = radius * 2; the result is the list of
    final planar positions keyed by id. -/
def calculateLayout (m : MathPrims) (chars : List String)
    (rels : List DependencyRelation) : List (String × ℚ × ℚ) :=
  let radius := max 10 (m.sqrt (chars.length : ℚ) * 3)
  let k := radius * 2
  let final := (layoutStep m k rels)^[layoutIterations] (layoutInit m chars radius)
  final.map fun nd => (nd.id, nd.x, nd.z)

/-- Checked variant of calculateLayout: every division performed by
    the layout computation is guarded, so the whole computation fails
    if and only if some division by zero occurs. -/
def calculateLayoutC (m : MathPrims) (chars : List String)
    (rels : List DependencyRelation) : Option (List (String × ℚ × ℚ)) := do
  let radius := max 10 (m.sqrt (chars.length : ℚ) * 3)
  let k := radius * 2
  let init ← layoutInitC m chars radius
  let final ← iterOptN layoutIterations (layoutStepC m k rels) init
  pure (final.map fun nd => (nd.id, nd.x, nd.z))

/-- A stream of Math.random() outcomes, indexed by draw order. -/
def Rng : Type := ℕ → ℚ

/-- Particle counts of the flow particles created per relation line by
    SceneManager.createRelationLine: a line is created only when both
    endpoint characters exist, and carries 4 particles when the
    relation is bidirectional, 3 otherwise. -/
def lineParticleCounts (chars : List String)
    (rels : List DependencyRelation) : List ℕ :=
  (rels.filter fun r => chars.contains r.fromId && chars.contains r.toId).map
    fun r => if isBidirectionalRelation r.fromId r.toId rels then 4 else 3

/-- Flow particle speeds drawn in creation order: each particle speed
    is 0.5 + random() * 0.3. -/
def flowSpeedsList (rng : Rng) (i0 : ℕ) (counts : List ℕ) : List ℚ :=
  (List.range (counts.foldl (· + ·) 0)).map
    fun j => 1/2 + rng (i0 + j) * (3/10)

/-- Per-character animation state drawn by AnimationManager
    setCharacters: floatOffset = random() * pi * 2,
    floatSpeed = 0.5 + random() * 0.5, breathOffset = random() * pi * 2. -/
def animPhasesList (m : MathPrims) (rng : Rng) (i0 : ℕ)
    (ids : List String) : List (String × ℚ × ℚ × ℚ) :=
  (ids.foldl
    (fun (acc : ℕ × List (String × ℚ × ℚ × ℚ)) id =>
      (acc.1 + 3,
       acc.2 ++ [(id, rng acc.1 * m.pi * 2,
                  1/2 + rng (acc.1 + 1) * (1/2),
                  rng (acc.1 + 2) * m.pi * 2)]))
    (i0, [])).2

/-- Observable result of SceneManager.loadAnalysis relevant here:
    layout positions, randomly drawn flow particle speeds and randomly
    drawn per-character animation phases.  The layout is computed
    before any random draw and reads none of the stream; mesh-internal
    cosmetic jitter of character generation is not tracked since it
    also draws after the layout is fixed. -/
structure LoadResult where
  positions : List (String × ℚ × ℚ)
  flowSpeeds : List ℚ
  animPhases : List (String × ℚ × ℚ × ℚ)

/-- Model of the loadAnalysis pipeline: layout first (no randomness),
    then relation lines draw particle speeds, then animation states
    draw phases, consuming the stream in order. -/
def loadAnalysisModel (m : MathPrims) (chars : List String)
    (rels : List DependencyRelation) (rng : Rng) : LoadResult :=
  let counts := lineParticleCounts chars rels
  { positions := calculateLayout m chars rels
    flowSpeeds := flowSpeedsList rng 0 counts
    animPhases := animPhasesList m rng (counts.foldl (· + ·) 0) chars }

/-- Observable effect of SceneManager.createRelationLines: which
    relations obtained a line, and which diagnostic counts were
    logged.  The source loop creates a line exactly when both endpoint
    characters are present and performs no logging of any kind, so the
    log component stays empty. -/
structure RelationLinesResult where
  createdLines : List DependencyRelation
  loggedSkipCounts : List ℕ
deriving DecidableEq

/-- SceneManager.createRelationLines as a fold over the relation list:
    a relation with both endpoints present appends a line, any other
    relation is passed over without any further action. -/
def createRelationLines (chars : List String)
    (rels : List DependencyRelation) : RelationLinesResult :=
  rels.foldl
    (fun acc rel =>
      if chars.contains rel.fromId && chars.contains rel.toId then
        { acc with createdLines := acc.createdLines ++ [rel] }
      else acc)
    ⟨[], []⟩

/-- Number of relations whose source or target id matches no node. -/
def skippedRelationCount (chars : List String)
    (rels : List DependencyRelation) : ℕ :=
  (rels.filter fun r => !(chars.contains r.fromId && chars.contains r.toId)).length

/-- One flow particle of a relation pipe as kept in
    group.userData.flowParticles: progress offset, speed and direction
    sign. -/
structure ScnFlowParticle where
  offset : ℚ
  speed : ℚ
  direction : ℚ
deriving DecidableEq

/-- Wrapping of the particle progress in SceneManager.animate:
    above 1 it restarts at 0, below 0 it restarts at 1. -/
def wrapOffset (q : ℚ) : ℚ := if q > 1 then 0 else if q < 0 then 1 else q

/-- Per-frame particle update of SceneManager.animate: the offset
    advances by speed * direction * delta and wraps. -/
def sceneFlowStep (delta : ℚ) (p : ScnFlowParticle) : ScnFlowParticle :=
  { p with offset := wrapOffset (p.offset + p.speed * p.direction * delta) }

/-- Rendered particle position of SceneManager.animate: the position
    is copy(startPoint).lerp(endPoint, t) at t = offset. -/
def sceneFlowPosition (startP endP : Vec3) (p : ScnFlowParticle) : Vec3 :=
  lerpV startP endP p.offset

/-- Stated from the claim for comparison: the claimed particle
    position on a quadratic curve whose control point is the midpoint
    raised by bulge * sin(t * pi), evaluated with an abstract sin(t * pi)
    function.  This matches the formula of
    AnimationManager.getFlowParticlePositions (bulge 1.5), which is
    never fed any particles at runtime. -/
def specArcPosition (sinpi : ℚ → ℚ) (bulge : ℚ) (s e : Vec3) (t : ℚ) : Vec3 :=
  let mid : Vec3 := ⟨(s.x + e.x) / 2, (s.y + e.y) / 2 + bulge * sinpi t,
                     (s.z + e.z) / 2⟩
  let invT := 1 - t
  ⟨invT * invT * s.x + 2 * invT * t * mid.x + t * t * e.x,
   invT * invT * s.y + 2 * invT * t * mid.y + t * t * e.y,
   invT * invT * s.z + 2 * invT * t * mid.z + t * t * e.z⟩

/-- Concrete stand-in for sin(t * pi) used to evaluate the claimed arc
    at t = 1/2, where sin(pi / 2) = 1. -/
def sinPiHalf : ℚ → ℚ := fun q => if q = 1/2 then 1 else 0

/-- Per-character interaction flags kept in group.userData by the
    interaction manager, plus whether a selection ring mesh is
    currently attached to the group. -/
structure CharUd where
  id : String
  hasRing : Bool
  isSelected : Bool
  isDraggable : Bool
deriving DecidableEq

/-- Selection-related state of InteractionManager: the per-character
    flags and the selectedCharacter reference. -/
structure InteractionState where
  chars : List CharUd
  selected : Option String
deriving DecidableEq

/-- Deselect branch bookkeeping of InteractionManager.onDoubleClick:
    removeSelectionRing on the group plus clearing isSelected and
    isDraggable of that group only. -/
def deselectChar (a : String) (cs : List CharUd) : List CharUd :=
  cs.map fun c =>
    if c.id = a then
      { c with hasRing := false, isSelected := false, isDraggable := false }
    else c

/-- Select branch bookkeeping of InteractionManager.onDoubleClick:
    addSelectionRing (which first removes any ring of that group) plus
    setting isSelected and isDraggable of that group only. -/
def selectChar (a : String) (cs : List CharUd) : List CharUd :=
  cs.map fun c =>
    if c.id = a then
      { c with hasRing := true, isSelected := true, isDraggable := true }
    else c

/-- InteractionManager.clearAllSelections: every character loses its
    ring and its isSelected flag (isDraggable is untouched there). -/
def clearAllSelections (cs : List CharUd) : List CharUd :=
  cs.map fun c => { c with hasRing := false, isSelected := false }

/-- InteractionManager.onDoubleClick with a ray hit on character a:
    if a is the currently selected character it is deselected,
    otherwise any previous selection is deselected and a is selected. -/
def onDoubleClickHit (a : String) (s : InteractionState) : InteractionState :=
  if s.selected = some a then
    { chars := deselectChar a s.chars, selected := none }
  else
    let cs :=
      match s.selected with
      | some b => deselectChar b s.chars
      | none => s.chars
    { chars := selectChar a cs, selected := some a }

/-- InteractionManager.onDoubleClick with no hit: clearAllSelections
    (the accompanying clearHighlightNetwork touches only opacity
    state, modelled separately). -/
def onDoubleClickMiss (s : InteractionState) : InteractionState :=
  { s with chars := clearAllSelections s.chars }

/-- InteractionManager.onClick with a ray hit on character a: the
    selectedCharacter reference moves to a; rings and flags are not
    touched by this handler. -/
def onClickHit (a : String) (s : InteractionState) : InteractionState :=
  { s with selected := some a }

/-- InteractionManager.onClick with no hit: the selection reference is
    dropped and clearAllSelections runs. -/
def onClickMiss (s : InteractionState) : InteractionState :=
  ⟨clearAllSelections s.chars, none⟩

/-- Concrete relation whose target id matches no node, for the
    skip-count evaluation. -/
def relAB : DependencyRelation := ⟨"A", "B", "fan", 1, ""⟩

/-- Concrete interaction state for the deselection witness: character
    A selected with its ring attached, character B idle. -/
def c7wState : InteractionState :=
  ⟨[⟨"A", true, true, true⟩, ⟨"B", false, false, true⟩], some "A"⟩

/-- Cached pre-highlight material fields, as written into
    material.userData by the restore branch of highlightNetwork. -/
structure MatCache where
  wasTransparent : Bool
  originalOpacity : ℚ
deriving DecidableEq

/-- One (non-array) material of a character mesh child.  Only
    MeshToonMaterial / MeshStandardMaterial children are touched by
    the highlight code, recorded by isToonOrStandard. -/
structure CharMaterial where
  isToonOrStandard : Bool
  transparent : Bool
  opacity : ℚ
  cache : Option MatCache
deriving DecidableEq

/-- A character entity of the scene: its originalFile id and the
    materials of its mesh children. -/
structure SceneCharacter where
  id : String
  mats : List CharMaterial
deriving DecidableEq

/-- A relation line group: its relation and the opacity of the shared
    MeshStandardMaterial used by its pipe and arrow meshes
    (createRelationLine creates one material for all of them, with
    initial opacity strength * 0.7). -/
structure SceneRelationLine where
  relation : DependencyRelation
  pipeOpacity : ℚ
deriving DecidableEq

/-- The scene state read and written by highlightNetwork and
    clearHighlightNetwork. -/
structure HighlightScene where
  characters : List SceneCharacter
  relationLines : List SceneRelationLine
  relations : List DependencyRelation
deriving DecidableEq

/-- Whether a relation touches the focus file. -/
def relationTouches (focus : String) (r : DependencyRelation) : Bool :=
  r.fromId == focus || r.toId == focus

/-- The relatedFiles set of highlightNetwork: both endpoints of every
    relation touching the focus. -/
def relatedFiles (focus : String) (rels : List DependencyRelation) :
    List String :=
  (rels.filter (relationTouches focus)).foldl
    (fun acc r => acc ++ [r.fromId, r.toId]) []

/-- Whether a line belongs to the highlightedLines set: its relation
    is one of the relations touching the focus. -/
def lineHighlighted (focus : String) (rels : List DependencyRelation)
    (ln : SceneRelationLine) : Bool :=
  rels.any fun r => relationTouches focus r && decide (ln.relation = r)

/-- Dimming of one material of an unrelated character: transparent is
    forced on and opacity set to 0.3.  Nothing is cached here. -/
def dimMat (mat : CharMaterial) : CharMaterial :=
  if mat.isToonOrStandard then
    { mat with transparent := true, opacity := 3/10 }
  else mat

/-- Restore branch of highlightNetwork for a related character: the
    current fields are cached into material.userData when absent, then
    the material is forced opaque with opacity 1. -/
def restoreRelatedMat (mat : CharMaterial) : CharMaterial :=
  if mat.isToonOrStandard then
    { mat with
      cache := match mat.cache with
               | none => some ⟨mat.transparent, mat.opacity⟩
               | some c => some c
      transparent := false
      opacity := 1 }
  else mat

/-- InteractionManager.highlightNetwork: unrelated lines are dimmed to
    opacity 0.1 and related lines raised to 0.9; characters outside
    relatedFiles get every toon or standard material dimmed without
    caching, characters inside get the restore branch. -/
def highlightNetwork (focus : String) (s : HighlightScene) : HighlightScene :=
  let related := relatedFiles focus s.relations
  { s with
    relationLines := s.relationLines.map fun ln =>
      if lineHighlighted focus s.relations ln then
        { ln with pipeOpacity := 9/10 }
      else
        { ln with pipeOpacity := 1/10 }
    characters := s.characters.map fun ch =>
      if related.contains ch.id then
        { ch with mats := ch.mats.map restoreRelatedMat }
      else
        { ch with mats := ch.mats.map dimMat } }

/-- Clearing of one character material by clearHighlightNetwork:
    transparent becomes userData.wasTransparent || false and opacity
    becomes userData.originalOpacity || 1 (JavaScript falsy defaults). -/
def clearMat (mat : CharMaterial) : CharMaterial :=
  if mat.isToonOrStandard then
    { mat with
      transparent := match mat.cache with
                     | some c => c.wasTransparent
                     | none => false
      opacity := match mat.cache with
                 | some c => if c.originalOpacity = 0 then 1 else c.originalOpacity
                 | none => 1 }
  else mat

/-- InteractionManager.clearHighlightNetwork: every character material
    is cleared from its cache (or the falsy defaults), and every
    relation line material is set to strength * 0.8. -/
def clearHighlightNetwork (s : HighlightScene) : HighlightScene :=
  { s with
    characters := s.characters.map fun ch =>
      { ch with mats := ch.mats.map clearMat }
    relationLines := s.relationLines.map fun ln =>
      { ln with pipeOpacity := ln.relation.strength * (4/5) } }

/-- Concrete relation for the highlight round-trip evaluation. -/
def relFB : DependencyRelation := ⟨"F", "B", "fan", 1, ""⟩

/-- Pre-highlight scene: focus character F and its neighbor B with
    plain opaque materials, an unrelated character A with an
    intrinsically transparent material (opacity 0.7, as the wing
    material of the helpful character), and the F to B line at its
    creation opacity strength * 0.7. -/
def baselineScene : HighlightScene :=
  { characters := [⟨"F", [⟨true, false, 1, none⟩]⟩,
                   ⟨"B", [⟨true, false, 1, none⟩]⟩,
                   ⟨"A", [⟨true, true, 7/10, none⟩]⟩]
    relationLines := [⟨relFB, relFB.strength * (7/10)⟩]
    relations := [relFB] }

/-- Geometry of one relation pipe group as far as length and arrow
    placement are concerned: the cylinder geometry height fixed at
    creation, the y scale of the pipe mesh, the stored endpoints and
    the arrow standoff (distance of an arrow from its endpoint along
    the unit direction, arrowLength * 0.5). -/
structure PipeGeom where
  geomHeight : ℚ
  scaleY : ℚ
  startPoint : Vec3
  endPoint : Vec3
  arrowStandoff : ℚ
deriving DecidableEq

/-- SceneManager.createRelationLine geometry: endpoints are the
    character positions raised by (0, 1, 0); the cylinder is created
    with height equal to the distance between them and default scale
    1; arrows use arrowLength 0.8, placed arrowLength * 0.5 from their
    endpoint. -/
def createRelationLineGeom (m : MathPrims) (fromPos toPos : Vec3) : PipeGeom :=
  let s : Vec3 := ⟨fromPos.x, fromPos.y + 1, fromPos.z⟩
  let e : Vec3 := ⟨toPos.x, toPos.y + 1, toPos.z⟩
  ⟨m.sqrt (normSq (vsub e s)), 1, s, e, (8/10) * (1/2)⟩

/-- InteractionManager.updateRelationLines geometry for one touched
    line: the moved endpoint is set to (newPos.x, 1, newPos.z), the
    pipe is rescaled to scale.y = newLength / 2 (the geometry height
    is never recreated), and arrows are repositioned with
    arrowLength 0.5, hence standoff 0.25. -/
def updateRelationLineGeom (m : MathPrims) (g : PipeGeom)
    (movesStart movesEnd : Bool) (newPos : Vec3) : PipeGeom :=
  let s := if movesStart then (⟨newPos.x, 1, newPos.z⟩ : Vec3) else g.startPoint
  let e := if movesEnd then (⟨newPos.x, 1, newPos.z⟩ : Vec3) else g.endPoint
  { g with
    startPoint := s
    endPoint := e
    scaleY := m.sqrt (normSq (vsub e s)) / 2
    arrowStandoff := (5/10) * (1/2) }

/-- The rendered length of the pipe mesh: geometry height times the
    y scale applied to the mesh. -/
def renderedPipeLength (g : PipeGeom) : ℚ := g.geomHeight * g.scaleY

/-- Concrete primitive valuation for the drag evaluation: the square
    roots of 16 and 36 as the runtime would produce them. -/
def dragPrims : MathPrims :=
  ⟨fun q => if q = 16 then 4 else if q = 36 then 6 else 0,
   fun _ => 1, fun _ => 0, 3⟩

/-- Listeners registered on the window object, each identified by its
    event name and the identity of the callback function.  Every
    evaluation of this.onWindowResize.bind(this) creates a fresh
    function identity, modelled by the nextBindId counter. -/
structure WindowListeners where
  listeners : List (String × ℕ)
  nextBindId : ℕ
deriving DecidableEq

/-- window.addEventListener: registers the (event, callback) pair. -/
def addWindowListener (ev : String) (fid : ℕ) (w : WindowListeners) :
    WindowListeners :=
  { w with listeners := w.listeners ++ [(ev, fid)] }

/-- window.removeEventListener: removes the pair only when the very
    same (event, callback identity) pair is registered, otherwise a
    no-op. -/
def removeWindowListener (ev : String) (fid : ℕ) (w : WindowListeners) :
    WindowListeners :=
  { w with listeners := w.listeners.erase (ev, fid) }

/-- SceneManager.mount restricted to the window resize listener: a
    fresh bound function is created and registered for resize. -/
def mountResize (w : WindowListeners) : WindowListeners :=
  addWindowListener "resize" w.nextBindId
    { w with nextBindId := w.nextBindId + 1 }

/-- SceneManager.dispose restricted to the window resize listener: a
    fresh bound function is created and passed to removeEventListener. -/
def disposeResize (w : WindowListeners) : WindowListeners :=
  removeWindowListener "resize" w.nextBindId
    { w with nextBindId := w.nextBindId + 1 }

lemma jsOr1_ne_zero (q : ℚ) : jsOr1 q ≠ 0 := by
  unfold jsOr1
  split
  · norm_num
  · assumption

lemma divC_eq (a b : ℚ) (h : b ≠ 0) : divC a b = some (a / b) := by
  unfold divC
  rw [if_neg h]

lemma optFoldl_eq_some {α β : Type} {f : β → α → Option β} {g : β → α → β}
    (l : List α) (h : ∀ b a, a ∈ l → f b a = some (g b a)) :
    ∀ b, optFoldl f b l = some (l.foldl g b) := by
  induction l with
  | nil => intro b; rfl
  | cons a l ih =>
    intro b
    simp only [optFoldl, List.foldl_cons]
    rw [h b a (List.mem_cons_self a l)]
    exact ih (fun b2 a2 ha => h b2 a2 (List.mem_cons_of_mem _ ha)) (g b a)

lemma optMap_eq_some {α β : Type} {f : α → Option β} {g : α → β}
    (l : List α) (h : ∀ a ∈ l, f a = some (g a)) :
    optMap f l = some (l.map g) := by
  induction l with
  | nil => rfl
  | cons a l ih =>
    simp only [optMap, List.map_cons]
    rw [h a (List.mem_cons_self a l),
        ih (fun a2 ha => h a2 (List.mem_cons_of_mem _ ha))]
    rfl

lemma iterOptN_eq_some {α : Type} {f : α → Option α} {g : α → α}
    (h : ∀ a, f a = some (g a)) :
    ∀ (n : ℕ) (a : α), iterOptN n f a = some (g^[n] a) := by
  intro n
  induction n with
  | zero => intro a; rfl
  | succ n ih =>
    intro a
    simp only [iterOptN]
    rw [h a]
    show iterOptN n f (g a) = _
    rw [ih (g a), Function.iterate_succ_apply]

lemma repulseNodeC_eq (m : MathPrims) (k : ℚ) (nodes : List LayoutNode)
    (n1 : LayoutNode) :
    repulseNodeC m k nodes n1 = some (repulseNode m k nodes n1) := by
  unfold repulseNodeC repulseNode
  apply optFoldl_eq_some
  intro b a _
  by_cases hid : b.id = a.id
  · simp [hid]
  · simp [hid, divC, jsOr1_ne_zero]

lemma repulsePhaseC_eq (m : MathPrims) (k : ℚ) (nodes : List LayoutNode) :
    repulsePhaseC m k nodes = some (repulsePhase m k nodes) :=
  optMap_eq_some nodes fun a _ => repulseNodeC_eq m k nodes a

lemma attractPhaseC_eq {m : MathPrims} {k : ℚ}
    {rels : List DependencyRelation} (hk : k ≠ 0) (nodes : List LayoutNode) :
    attractPhaseC m k rels nodes = some (attractPhase m k rels nodes) := by
  unfold attractPhaseC attractPhase
  apply optFoldl_eq_some
  intro ns rel _
  cases hf : findNode ns rel.fromId with
  | none => simp [hf]
  | some n1 =>
    cases ht : findNode ns rel.toId with
    | none => simp [hf, ht]
    | some n2 => simp [hf, ht, divC, jsOr1_ne_zero, hk]

lemma centerNodeC_eq (m : MathPrims) (n : LayoutNode) :
    centerNodeC m n = some (centerNode m n) := by
  simp [centerNodeC, centerNode, divC, jsOr1_ne_zero]

lemma centerPhaseC_eq (m : MathPrims) (nodes : List LayoutNode) :
    centerPhaseC m nodes = some (centerPhase m nodes) :=
  optMap_eq_some nodes fun a _ => centerNodeC_eq m a

lemma layoutStepC_eq {m : MathPrims} {k : ℚ}
    {rels : List DependencyRelation} (hk : k ≠ 0) (nodes : List LayoutNode) :
    layoutStepC m k rels nodes = some (layoutStep m k rels nodes) := by
  unfold layoutStepC layoutStep
  rw [repulsePhaseC_eq]
  show attractPhaseC m k rels _ >>= _ = _
  rw [attractPhaseC_eq hk]
  show centerPhaseC m _ >>= _ = _
  rw [centerPhaseC_eq]
  rfl

lemma layoutInitC_eq (m : MathPrims) (chars : List String) (radius : ℚ) :
    layoutInitC m chars radius = some (layoutInit m chars radius) := by
  unfold layoutInitC layoutInit
  apply optFoldl_eq_some
  intro b p hp
  have hlen : ((chars.length : ℕ) : ℚ) ≠ 0 := by
    have h1 : 0 < chars.enum.length := List.length_pos.mpr (List.ne_nil_of_mem hp)
    rw [List.enum_length] at h1
    exact Nat.cast_ne_zero.mpr (Nat.pos_iff_ne_zero.mp h1)
  simp [divC, hlen]

/-- Claim C3: the layout positions produced by the loadGraph pipeline
    are identical for any two streams of Math.random() outcomes, hence
    two loads of the same input produce the same positions; only the
    per-entity animation phases and particle speeds read the stream. -/
theorem layout_positions_independent_of_randomness
    (m : MathPrims) (chars : List String) (rels : List DependencyRelation)
    (rng1 rng2 : Rng) :
    (loadAnalysisModel m chars rels rng1).positions =
      (loadAnalysisModel m chars rels rng2).positions := rfl

/-- Claim C4: the layout computation with every division guarded
    succeeds on every input (any node list, any relation list, any
    valuation of sqrt / cos / sin / pi, hence also fully coincident
    start points) and returns the same rational — therefore finite —
    positions as the total model: the guard dist || 1 keeps every
    divisor nonzero through all 100 iterations. -/
theorem layout_total_no_division_by_zero
    (m : MathPrims) (chars : List String) (rels : List DependencyRelation) :
    calculateLayoutC m chars rels = some (calculateLayout m chars rels) := by
  unfold calculateLayoutC calculateLayout
  have hk : max 10 (m.sqrt ((chars.length : ℕ) : ℚ) * 3) * 2 ≠ 0 := by
    have h10 := le_max_left (10 : ℚ) (m.sqrt ((chars.length : ℕ) : ℚ) * 3)
    intro hzero
    linarith
  simp [layoutInitC_eq, iterOptN_eq_some (layoutStepC_eq hk)]

/-- Claim C8: a relation is flagged bidirectional exactly when the
    relation set contains a relation with the swapped endpoints; in
    particular a lone relation with no reverse counterpart is not
    flagged. -/
theorem bidirectional_iff_reverse_exists
    (fromId toId : String) (rels : List DependencyRelation) :
    isBidirectionalRelation fromId toId rels = true ↔
      ∃ r ∈ rels, r.fromId = toId ∧ r.toId = fromId := by
  simp [isBidirectionalRelation, List.any_eq_true]

/-- Claim C10: for every non-negative linesOfCode the code-size scale
    equals its pre-clamp value 1 + min(linesOfCode / 500 * 0.1, 0.5),
    lies in the interval from 1 to 1.5, and is never the lower clamp
    bound 0.6. -/
theorem code_scale_between_one_and_three_halves
    (loc : ℚ) (h : 0 ≤ loc) :
    calculateScaleFromCodeSize loc = 1 + min (loc / 500 * (1/10)) (1/2) ∧
    1 ≤ calculateScaleFromCodeSize loc ∧
    calculateScaleFromCodeSize loc ≤ 3/2 ∧
    calculateScaleFromCodeSize loc ≠ 6/10 := by
  have hm0 : 0 ≤ min (loc / 500 * (1/10)) (1/2) :=
    le_min (by positivity) (by norm_num)
  have hm1 : min (loc / 500 * (1/10)) (1/2) ≤ 1/2 := min_le_right _ _
  have heq : calculateScaleFromCodeSize loc = 1 + min (loc / 500 * (1/10)) (1/2) := by
    unfold calculateScaleFromCodeSize
    have h2 : min ((15:ℚ)/10) (1 + min (loc / 500 * (1/10)) (1/2)) =
        1 + min (loc / 500 * (1/10)) (1/2) := min_eq_right (by linarith)
    show max ((6:ℚ)/10) (min ((15:ℚ)/10) (1 + min (loc / 500 * (1/10)) (1/2))) =
        1 + min (loc / 500 * (1/10)) (1/2)
    rw [h2, max_eq_right (by linarith)]
  refine ⟨heq, ?_, ?_, ?_⟩
  · rw [heq]; linarith
  · rw [heq]; linarith
  · rw [heq]; intro hbad; linarith

/-- Witness for C10 at linesOfCode = 1000: the scale evaluates to 6/5. -/
theorem code_scale_between_one_and_three_halves_witness :
    (0 : ℚ) ≤ 1000 ∧
    (calculateScaleFromCodeSize 1000 = 1 + min ((1000 : ℚ) / 500 * (1/10)) (1/2) ∧
     1 ≤ calculateScaleFromCodeSize 1000 ∧
     calculateScaleFromCodeSize 1000 ≤ 3/2 ∧
     calculateScaleFromCodeSize 1000 ≠ 6/10) :=
  ⟨by norm_num, code_scale_between_one_and_three_halves 1000 (by norm_num)⟩

lemma createRelationLines_foldl (p : DependencyRelation → Bool)
    (rels : List DependencyRelation) :
    ∀ acc : RelationLinesResult,
      rels.foldl
        (fun acc rel =>
          if p rel then
            { acc with createdLines := acc.createdLines ++ [rel] }
          else acc) acc =
      ⟨acc.createdLines ++ rels.filter p, acc.loggedSkipCounts⟩ := by
  induction rels with
  | nil => intro acc; simp
  | cons r rels ih =>
    intro acc
    by_cases hp : p r = true
    · simp [hp, ih, List.append_assoc]
    · simp [hp, ih]

/-- Claim C5 counterexample: for the single relation A to B with node
    B missing, exactly one relation is skipped, yet the diagnostic log
    stays empty — the skip count is not recorded anywhere. -/
theorem skip_count_never_logged_cex :
    skippedRelationCount ["A"] [relAB] = 1 ∧
    (createRelationLines ["A"] [relAB]).loggedSkipCounts = [] ∧
    (createRelationLines ["A"] [relAB]).loggedSkipCounts ≠
      [skippedRelationCount ["A"] [relAB]] := by decide

/-- Claim C5 as amended: a relation with a missing endpoint is skipped
    without any error (the builder is total and creates lines exactly
    for the relations whose endpoints both exist), but no skip count
    is logged or recorded. -/
theorem relations_with_missing_nodes_skipped
    (chars : List String) (rels : List DependencyRelation) :
    (createRelationLines chars rels).createdLines =
      rels.filter (fun r => chars.contains r.fromId && chars.contains r.toId) ∧
    (createRelationLines chars rels).loggedSkipCounts = [] := by
  have h : createRelationLines chars rels =
      ⟨rels.filter (fun r => chars.contains r.fromId && chars.contains r.toId), []⟩ :=
    createRelationLines_foldl _ rels ⟨[], []⟩
  exact ⟨by rw [h], by rw [h]⟩

/-- Claim C6 counterexample: the rendered flow particle at progress
    1/2 between (0,0,0) and (2,0,0) sits at (1,0,0), exactly on the
    straight segment, while the claimed quadratic arc with bulge
    1.5 * sin(t * pi) would put it at (1, 3/4, 0). -/
theorem flow_particle_on_straight_segment_cex :
    sceneFlowPosition ⟨0, 0, 0⟩ ⟨2, 0, 0⟩ ⟨1/2, 1, 1⟩ =
      lerpV ⟨0, 0, 0⟩ ⟨2, 0, 0⟩ (1/2) ∧
    sceneFlowPosition ⟨0, 0, 0⟩ ⟨2, 0, 0⟩ ⟨1/2, 1, 1⟩ = ⟨1, 0, 0⟩ ∧
    specArcPosition sinPiHalf (3/2) ⟨0, 0, 0⟩ ⟨2, 0, 0⟩ (1/2) = ⟨1, 3/4, 0⟩ ∧
    sceneFlowPosition ⟨0, 0, 0⟩ ⟨2, 0, 0⟩ ⟨1/2, 1, 1⟩ ≠
      specArcPosition sinPiHalf (3/2) ⟨0, 0, 0⟩ ⟨2, 0, 0⟩ (1/2) := by
  norm_num [sceneFlowPosition, lerpV, specArcPosition, sinPiHalf, Vec3.mk.injEq]

/-- Claim C6 as amended: each frame advances a flow particle by
    speed * direction * delta, wraps the progress into the unit
    interval preserving the direction sign, and renders the particle
    by linear interpolation between the stored endpoints — its
    position lies on the straight segment, not on an arc. -/
lemma wrapOffset_bounds (q : ℚ) : 0 ≤ wrapOffset q ∧ wrapOffset q ≤ 1 := by
  unfold wrapOffset
  split_ifs with h1 h2
  · exact ⟨le_refl 0, by norm_num⟩
  · exact ⟨by norm_num, le_refl 1⟩
  · exact ⟨not_lt.mp h2, not_lt.mp h1⟩

theorem flow_particle_moves_on_segment
    (s e : Vec3) (p : ScnFlowParticle) (delta : ℚ) :
    (sceneFlowStep delta p).direction = p.direction ∧
    ∃ t, 0 ≤ t ∧ t ≤ 1 ∧
      sceneFlowPosition s e (sceneFlowStep delta p) = lerpV s e t := by
  refine ⟨rfl, (sceneFlowStep delta p).offset, ?_, ?_, rfl⟩
  · exact (wrapOffset_bounds (p.offset + p.speed * p.direction * delta)).1
  · exact (wrapOffset_bounds (p.offset + p.speed * p.direction * delta)).2

/-- Claim C7 counterexample: after double-click selecting A, a single
    click moves the selection to B without touching the ring on A;
    double-clicking the now selected B deselects it, yet the ring on A
    remains in the scene. -/
theorem residual_selection_ring_cex :
    (onClickHit "B" (onDoubleClickHit "A"
        ⟨[⟨"A", false, false, true⟩, ⟨"B", false, false, true⟩], none⟩)).selected =
      some "B" ∧
    (onDoubleClickHit "B" (onClickHit "B" (onDoubleClickHit "A"
        ⟨[⟨"A", false, false, true⟩, ⟨"B", false, false, true⟩], none⟩))).selected =
      none ∧
    ((onDoubleClickHit "B" (onClickHit "B" (onDoubleClickHit "A"
        ⟨[⟨"A", false, false, true⟩, ⟨"B", false, false, true⟩], none⟩))).chars.any
      fun c => c.hasRing) = true := by decide

/-- Claim C7 as amended: double-clicking the currently selected node
    deselects it — the selection reference is dropped and the node
    loses its ring, its selected flag and its draggable flag — and no
    ring remains anywhere provided no other node carried a ring, which
    holds in the scenario of double-click select followed by
    double-click deselect but can fail after a single click moved the
    selection away from a ring-bearing node. -/
theorem double_click_deselect_clears_ring
    (s : InteractionState) (a : String)
    (hsel : s.selected = some a)
    (hring : ∀ c ∈ s.chars, c.hasRing = true → c.id = a) :
    (onDoubleClickHit a s).selected = none ∧
    ∀ c ∈ (onDoubleClickHit a s).chars,
      c.hasRing = false ∧
      (c.id = a → c.isSelected = false ∧ c.isDraggable = false) := by
  unfold onDoubleClickHit
  rw [hsel, if_pos rfl]
  refine ⟨rfl, ?_⟩
  intro c hc
  simp only [deselectChar, List.mem_map] at hc
  obtain ⟨c0, hc0, rfl⟩ := hc
  by_cases hid : c0.id = a
  · simp [hid]
  · simp only [if_neg hid]
    refine ⟨?_, fun hbad => absurd hbad hid⟩
    cases hr : c0.hasRing with
    | false => rfl
    | true => exact absurd (hring c0 hc0 hr) hid

/-- Witness for the amended C7 at a concrete two-node state with A
    selected and ringed. -/
theorem double_click_deselect_clears_ring_witness :
    (c7wState.selected = some "A" ∧
     (∀ c ∈ c7wState.chars, c.hasRing = true → c.id = "A")) ∧
    ((onDoubleClickHit "A" c7wState).selected = none ∧
     ∀ c ∈ (onDoubleClickHit "A" c7wState).chars,
       c.hasRing = false ∧
       (c.id = "A" → c.isSelected = false ∧ c.isDraggable = false)) :=
  ⟨⟨by decide, by decide⟩,
   double_click_deselect_clears_ring c7wState "A" (by decide) (by decide)⟩

/-- Claim C1: the highlight and clear round trip does not restore the
    pre-highlight scene.  The connector created at opacity
    strength * 0.7 comes back at strength * 0.8, and the unrelated
    character A, whose material was intrinsically transparent with
    opacity 0.7, comes back opaque with opacity 1 because nothing was
    cached before dimming. -/
theorem clear_highlight_does_not_restore :
    clearHighlightNetwork (highlightNetwork "F" baselineScene) ≠ baselineScene ∧
    (clearHighlightNetwork (highlightNetwork "F" baselineScene)).relationLines =
      [⟨relFB, 4/5⟩] ∧
    baselineScene.relationLines = [⟨relFB, 7/10⟩] ∧
    ((clearHighlightNetwork (highlightNetwork "F" baselineScene)).characters.map
      fun ch => (ch.id, ch.mats.map fun mt => (mt.transparent, mt.opacity))) =
      [("F", [(false, 1)]), ("B", [(false, 1)]), ("A", [(false, 1)])] ∧
    (baselineScene.characters.map
      fun ch => (ch.id, ch.mats.map fun mt => (mt.transparent, mt.opacity))) =
      [("F", [(false, 1)]), ("B", [(false, 1)]), ("A", [(true, 7/10)])] := by
  refine ⟨?_, ?_, ?_, ?_, ?_⟩
  · intro h
    have h2 := congrArg (fun s => s.relationLines) h
    simp [clearHighlightNetwork, highlightNetwork, baselineScene, relFB,
      lineHighlighted, relationTouches, relatedFiles] at h2
    norm_num at h2
  all_goals
    simp [clearHighlightNetwork, highlightNetwork, baselineScene, relFB,
      lineHighlighted, relationTouches, relatedFiles, clearMat, dimMat,
      restoreRelatedMat]

/-- Claim C2: after dragging node B (endpoint of the connector created
    between distance-4 nodes) to distance 6, the rendered pipe length
    is geometry height 4 times scale 3 = 12, not the new distance 6,
    because the update rescales assuming a height-2 cylinder; and the
    arrow standoff changes from 0.4 at creation to 0.25 on update
    instead of staying fixed. -/
theorem drag_update_wrong_length_and_standoff (m : MathPrims)
    (h16 : m.sqrt 16 = 4) (h36 : m.sqrt 36 = 6) :
    renderedPipeLength (updateRelationLineGeom m
        (createRelationLineGeom m ⟨0, 0, 0⟩ ⟨0, 0, 4⟩) false true ⟨0, 0, 6⟩) = 12 ∧
    m.sqrt (normSq (vsub
        (updateRelationLineGeom m (createRelationLineGeom m ⟨0, 0, 0⟩ ⟨0, 0, 4⟩)
          false true ⟨0, 0, 6⟩).endPoint
        (updateRelationLineGeom m (createRelationLineGeom m ⟨0, 0, 0⟩ ⟨0, 0, 4⟩)
          false true ⟨0, 0, 6⟩).startPoint)) = 6 ∧
    (12 : ℚ) ≠ 6 ∧
    (createRelationLineGeom m ⟨0, 0, 0⟩ ⟨0, 0, 4⟩).arrowStandoff = 2/5 ∧
    (updateRelationLineGeom m (createRelationLineGeom m ⟨0, 0, 0⟩ ⟨0, 0, 4⟩)
        false true ⟨0, 0, 6⟩).arrowStandoff = 1/4 ∧
    ((2 : ℚ)/5) ≠ 1/4 := by
  norm_num [renderedPipeLength, updateRelationLineGeom, createRelationLineGeom,
    normSq, vsub, h16, h36]

/-- Witness for C2 at a concrete primitive valuation realizing the
    square roots of 16 and 36. -/
theorem drag_update_wrong_length_and_standoff_witness :
    (dragPrims.sqrt 16 = 4 ∧ dragPrims.sqrt 36 = 6) ∧
    (renderedPipeLength (updateRelationLineGeom dragPrims
        (createRelationLineGeom dragPrims ⟨0, 0, 0⟩ ⟨0, 0, 4⟩) false true
        ⟨0, 0, 6⟩) = 12 ∧
     dragPrims.sqrt (normSq (vsub
        (updateRelationLineGeom dragPrims
          (createRelationLineGeom dragPrims ⟨0, 0, 0⟩ ⟨0, 0, 4⟩)
          false true ⟨0, 0, 6⟩).endPoint
        (updateRelationLineGeom dragPrims
          (createRelationLineGeom dragPrims ⟨0, 0, 0⟩ ⟨0, 0, 4⟩)
          false true ⟨0, 0, 6⟩).startPoint)) = 6 ∧
     (12 : ℚ) ≠ 6 ∧
     (createRelationLineGeom dragPrims ⟨0, 0, 0⟩ ⟨0, 0, 4⟩).arrowStandoff = 2/5 ∧
     (updateRelationLineGeom dragPrims
        (createRelationLineGeom dragPrims ⟨0, 0, 0⟩ ⟨0, 0, 4⟩)
        false true ⟨0, 0, 6⟩).arrowStandoff = 1/4 ∧
     ((2 : ℚ)/5) ≠ 1/4) :=
  ⟨⟨by norm_num [dragPrims], by norm_num [dragPrims]⟩,
   drag_update_wrong_length_and_standoff dragPrims
     (by norm_num [dragPrims]) (by norm_num [dragPrims])⟩

/-- Claim C9: whenever every registered listener identity predates the
    current bind counter, the resize listener registered by mount is
    still registered after dispose — dispose passes a freshly bound
    function to removeEventListener, so the removal is a no-op. -/
theorem resize_listener_survives_dispose (w : WindowListeners)
    (h : ∀ p ∈ w.listeners, p.2 < w.nextBindId) :
    ("resize", w.nextBindId) ∈ (disposeResize (mountResize w)).listeners := by
  unfold mountResize disposeResize addWindowListener removeWindowListener
  have hnot : ("resize", w.nextBindId + 1) ∉
      w.listeners ++ [("resize", w.nextBindId)] := by
    intro hmem
    rcases List.mem_append.mp hmem with h1 | h2
    · have h3 := h _ h1
      omega
    · simp at h2
  show ("resize", w.nextBindId) ∈
    (w.listeners ++ [("resize", w.nextBindId)]).erase ("resize", w.nextBindId + 1)
  rw [List.erase_of_not_mem hnot]
  exact List.mem_append_right _ (by simp)

/-- Witness for C9 from the empty listener table. -/
theorem resize_listener_survives_dispose_witness :
    (∀ p ∈ (⟨[], 0⟩ : WindowListeners).listeners,
        p.2 < (⟨[], 0⟩ : WindowListeners).nextBindId) ∧
    ("resize", (⟨[], 0⟩ : WindowListeners).nextBindId) ∈
      (disposeResize (mountResize ⟨[], 0⟩)).listeners :=
  ⟨by simp, resize_listener_survives_dispose ⟨[], 0⟩ (by simp)⟩

end CodeActor
